import Mathlib

/-!
# Verification of the Weather-Forecast widget against its specification

Shallow embedding of the Qt weather-forecast application:
* `citycodeutils.cpp` — city-name → city-code resolution with suffix fallback
  and lazy one-time dataset load;
* `widget.cpp` — the forecast parser `parseWeatherJsonDataNew`, the UI refresh
  `updateUI`, the trend-chart layout `drawTempLineHigh`/`drawTempLineLow`,
  the HTTP-reply handler `readHttpReply`, and the city-submit handler
  `on_LineEditCity_clicked`.

Qt containers and JSON values are modelled explicitly: `QMap<QString,QString>`
as an association list with first-match lookup, `QJsonValue` as an inductive
`JValue` whose `toString`/`toObject`/`toArray` conversions return the Qt
defaults (`""`, empty object, empty array) on a type mismatch, and a missing
object member as the undefined value (modelled by `JValue.null`, which
converts the same way). C++ `int` division is truncation toward zero,
modelled by `Int.tdiv`.
-/

namespace WeatherApp

/-- Model of `QJsonValue` (Qt JSON value). A missing member access yields the
undefined value; `null` here stands for both JSON null and Qt's undefined,
which behave identically under the conversions used by this program. -/
inductive JValue where
  | null : JValue
  | bool (b : Bool) : JValue
  | num (n : Int) : JValue
  | str (s : String) : JValue
  | arr (elems : List JValue) : JValue
  | obj (fields : List (String × JValue)) : JValue

/-- First-match lookup in an association list of JSON object members
(models `QJsonObject::operator[]` / `contains` key search). -/
def jLookup : List (String × JValue) → String → Option JValue
  | [], _ => none
  | (k, v) :: rest, key => if k = key then some v else jLookup rest key

/-- `QJsonObject::operator[]`: the member's value, or undefined when absent. -/
def jGet (fields : List (String × JValue)) (key : String) : JValue :=
  (jLookup fields key).getD JValue.null

/-- `QJsonValue::toString()`: the string payload, `""` for any other kind. -/
def JValue.toStringQ : JValue → String
  | .str s => s
  | _ => ""

/-- `QJsonValue::toArray()`: the array payload, empty for any other kind. -/
def JValue.toArrayQ : JValue → List JValue
  | .arr xs => xs
  | _ => []

/-- `QJsonValue::toObject()`: the object payload, empty for any other kind. -/
def JValue.toObjectQ : JValue → List (String × JValue)
  | .obj fs => fs
  | _ => []

/-- `QJsonValue::isArray()`. -/
def JValue.isArrayQ : JValue → Bool
  | .arr _ => true
  | _ => false

/-- `QJsonArray::operator[]`: element at an index, undefined when out of range. -/
def jIndex (xs : List JValue) (i : Nat) : JValue := xs.getD i JValue.null

/-- First-match lookup in an association list modelling
`QMap<QString,QString>::find` (a `QMap` holds each key at most once). -/
def mapFind : List (String × String) → String → Option String
  | [], _ => none
  | (k, v) :: rest, key => if k = key then some v else mapFind rest key

/-- `QMap<QString,QString>::operator[]` read: the stored value, or a
default-constructed `QString` (i.e. `""`) when the key is absent. -/
def qmapBracket (m : List (String × String)) (k : String) : String :=
  match mapFind m k with
  | some v => v
  | none => ""

/-! ## City code resolver (`citycodeutils.cpp`, lines 44–78)

`CityCodeUtils::getCityCodeFromName` first re-initialises the map when it is
empty (modelled separately by `resolverCall` below) and then performs the
suffix-fallback lookup, embedded here as the pure `getCityCodeFromName`. -/

/-- Lookup part of `CityCodeUtils::getCityCodeFromName` (lines 51–77):
exact match; on miss try `cityName + "市"`; on miss `cityName + "县"`;
on miss `cityName + "区"`; if all miss, return `""`. -/
def getCityCodeFromName (cityMap : List (String × String)) (cityName : String) : String :=
  match mapFind cityMap cityName with
  | some v => v
  | none =>
    let it := mapFind cityMap (cityName ++ "市")
    let it := match it with
      | none => mapFind cityMap (cityName ++ "县")
      | some v => some v
    let it := match it with
      | none => mapFind cityMap (cityName ++ "区")
      | some v => some v
    match it with
    | none => ""
    | some v => v

/-- One call of `CityCodeUtils::getCityCodeFromName` including its stateful
prelude (lines 46–49): when `CityMap` is empty, `InitCityMap()` runs and
replaces the table by the load result. Returns the table after the call, the
returned code, and whether `InitCityMap` was executed by this call.
`loadResult` is the table `InitCityMap` would build from the bundled dataset
(empty when the dataset is missing or malformed, lines 92–132). -/
def resolverCall (loadResult cityMap : List (String × String)) (cityName : String) :
    List (String × String) × String × Bool :=
  if cityMap.isEmpty then
    (loadResult, getCityCodeFromName loadResult cityName, true)
  else
    (cityMap, getCityCodeFromName cityMap cityName, false)

/-- A sequence of `getCityCodeFromName` calls on one resolver instance:
returns the final table, the list of returned codes, and how many of the
calls executed `InitCityMap`. -/
def runResolver (loadResult : List (String × String)) :
    List (String × String) → List String → List (String × String) × List String × Nat
  | cityMap, [] => (cityMap, [], 0)
  | cityMap, n :: rest =>
    let c := resolverCall loadResult cityMap n
    let r := runResolver loadResult c.1 rest
    (r.1, c.2.1 :: r.2.1, (if c.2.2 then 1 else 0) + r.2.2)

/-! ## Weather record model (`widget.h`: `Day days[7]`) -/

/-- One forecast-day record (class `Day`), fields as assigned in
`widget.cpp`. All fields are transported as text. -/
structure Day where
  mCity : String
  mPm25 : String
  mDate : String
  mWeek : String
  mWeathType : String
  mTemp : String
  mTempLow : String
  mTempHigh : String
  mFx : String
  mFl : String
  mAirq : String
  mTips : String
  mHu : String
deriving DecidableEq

/-- A default-constructed `Day` (all `QString` fields empty). -/
def Day.empty : Day :=
  ⟨"", "", "", "", "", "", "", "", "", "", "", "", ""⟩

/-- `widget.h` declares `Day days[7]`. -/
def daysArraySize : Nat := 7

/-- Write one slot of the `days` array, viewed as a map from indices to
records (the C array has only `daysArraySize` slots; larger indices model
out-of-bounds memory). -/
def writeDay (d : Nat → Day) (i : Nat) (rec : Day) : Nat → Day :=
  fun j => if j = i then rec else d j

/-! ## Forecast parser (`Widget::parseWeatherJsonDataNew`, lines 292–322) -/

/-- Loop body of the parser (lines 303–317): assign every listed field of
`days[i]` from the `i`-th element of the `data` array. Fields not assigned by
the loop (`mCity`, `mPm25`) keep their previous values. -/
def dayFromJson (old : Day) (v : JValue) : Day :=
  let o := v.toObjectQ
  { old with
    mDate := (jGet o "date").toStringQ
    mWeek := (jGet o "week").toStringQ
    mWeathType := (jGet o "wea").toStringQ
    mTemp := (jGet o "tem").toStringQ
    mTempLow := (jGet o "tem2").toStringQ
    mTempHigh := (jGet o "tem1").toStringQ
    mFx := (jIndex (jGet o "win").toArrayQ 0).toStringQ
    mFl := (jGet o "win_speed").toStringQ
    mAirq := (jGet o "air_level").toStringQ
    mTips := (jGet (jIndex (jGet o "index").toArrayQ 3).toObjectQ "desc").toStringQ
    mHu := (jGet o "humidity").toStringQ }

/-- `Widget::parseWeatherJsonDataNew`. The payload is `none` when
`QJsonDocument::fromJson` fails (the document is null). Returns the `days`
array after the call and whether `updateUI()` was invoked. Mirrors the
source: `days[0].mCity` and `days[0].mPm25` are assigned as soon as the
document is a JSON object, before the `data` member is checked; the day loop
runs over `i = 0 .. data.size()-1` with no bound check against
`daysArraySize`. -/
def parseWeatherJsonDataNew (payload : Option JValue) (days : Nat → Day) :
    (Nat → Day) × Bool :=
  match payload with
  | none => (days, false)
  | some doc =>
    match doc with
    | JValue.obj root =>
      let days := writeDay days 0
        { days 0 with
          mCity := (jGet root "city").toStringQ
          mPm25 := (jGet (jGet root "aqi").toObjectQ "pm25").toStringQ }
      if ((jLookup root "data").isSome && (jGet root "data").isArrayQ) then
        let weaArray := (jGet root "data").toArrayQ
        let days := (List.range weaArray.length).foldl
          (fun d i => writeDay d i (dayFromJson (d i) (jIndex weaArray i))) days
        (days, true)
      else
        (days, false)
    | _ => (days, false)

/-- The indices `i` at which the parser's day loop writes `days[i]`
(the loop `for(int i = 0; i < weaArray.size(); i++)`, line 301). -/
def parseWrittenIndices (payload : Option JValue) : List Nat :=
  match payload with
  | none => []
  | some doc =>
    match doc with
    | JValue.obj root =>
      if ((jLookup root "data").isSome && (jGet root "data").isArrayQ) then
        List.range (jGet root "data").toArrayQ.length
      else []
    | _ => []

/-! ## UI refresh (`Widget::updateUI`, lines 324–401)

The day-strip loop contains (lines 360–373):
```
int index = days[i].mWeathType.indexOf("转");
if(index!=-1) { pixmap = mTypeMap[days[i].mWeathType.right(index)]; }
else          { pixmap = mTypeMap[days[i].mWeathType]; }
pixmap = mTypeMap[days[i].mWeathType];
pixmap = pixmap.scaled(...);
mIconList[i]->setPixmap(mTypeMap[days[i].mWeathType]);
mWeaTypeList[i]->setText(days[i].mWeathType);
```
-/

/-- `QString::indexOf` helper over character lists: position of the first
occurrence of `pat`, scanning from character index `i`. -/
def qindexOfAux (pat : List Char) : List Char → Nat → Int
  | [], i => if pat.isEmpty then Int.ofNat i else -1
  | c :: rest, i =>
    if pat.isPrefixOf (c :: rest) then Int.ofNat i
    else qindexOfAux pat rest (i + 1)

/-- `QString::indexOf(pat)`: character index of the first occurrence of
`pat`, `-1` when absent. -/
def qindexOf (s pat : String) : Int := qindexOfAux pat.data s.data 0

/-- `QString::right(n)`: the `n` rightmost characters; the whole string when
`n` is negative or at least the length. -/
def qright (s : String) (n : Int) : String :=
  if n < 0 ∨ (s.data.length : Int) ≤ n then s
  else String.mk (s.data.drop (s.data.length - n.toNat))

/-- The icon path passed to `mIconList[i]->setPixmap` for a day whose
condition text is `w` (lines 360–372). The first two `pixmap` bindings mirror
the source's assignments that are overwritten before use; the final argument
of `setPixmap` is `mTypeMap[days[i].mWeathType]`, i.e. the lookup of the full
condition text. -/
def updateUIIconPath (typeMap : List (String × String)) (w : String) : String :=
  let index := qindexOf w "转"
  let pixmap := if index ≠ -1 then qmapBracket typeMap (qright w index)
                else qmapBracket typeMap w
  let pixmap := qmapBracket typeMap w
  qmapBracket typeMap w

/-- The text passed to `mWeaTypeList[i]->setText` (line 373): the full
condition string. -/
def updateUIConditionText (w : String) : String := w

/-- Modelled from the spec: "icon selection uses the substring after 转 if
present, else the full string". Spec-side definition, kept for comparison
with `updateUIIconPath` (the embedding of the code). -/
def iconKeyFromSpecAux : List Char → Option (List Char)
  | [] => none
  | c :: rest => if c = '转' then some rest else iconKeyFromSpecAux rest

/-- Modelled from the spec: the icon-selection key for condition text `w` —
the substring after the first "转" when one occurs, otherwise `w` itself. -/
def iconKeyFromSpec (w : String) : String :=
  match iconKeyFromSpecAux w.data with
  | some rest => String.mk rest
  | none => w

/-- The condition-to-icon table built in the constructor
(`widget.cpp`, the 36 `mTypeMap.insert` calls). -/
def mTypeMap : List (String × String) :=
  [("暴雪", ":/type/BaoXue.png"),
   ("暴雨", ":/type/BaoYu.png"),
   ("暴雨到大暴雨", ":/type/BaoYuDaoDaBaoYu.png"),
   ("大暴雨", ":/type/DaBaoYu.png"),
   ("大暴雨到特大暴雨", ":/type/DaBaoYuDaoTeDaBaoYu.png"),
   ("大到暴雪", ":/type/DaDaoBaoXue.png"),
   ("大雪", ":/type/DaXue.png"),
   ("大雨", ":/type/DaYu.png"),
   ("冻雨", ":/type/DongYu.png"),
   ("多云", ":/type/DuoYun.png"),
   ("浮沉", ":/type/FuChen.png"),
   ("雷阵雨", ":/type/LeiZhenYu.png"),
   ("雷阵雨伴有冰雹", ":/type/LeiZhenYuBanYouBingBao.png"),
   ("霾", ":/type/Mai.png"),
   ("强沙尘暴", ":/type/QiangShaChenBao.png"),
   ("晴", ":/type/Qing.png"),
   ("沙尘暴", ":/type/ShaChenBao.png"),
   ("特大暴雨", ":/type/TeDaBaoYu.png"),
   ("undefined", ":/type/undefined.png"),
   ("雾", ":/type/Wu.png"),
   ("小到中雪", ":/type/XiaoDaoZhongXue.png"),
   ("小到中雨", ":/type/XiaoDaoZhongYu.png"),
   ("小雪", ":/type/XiaoXue.png"),
   ("小雨", ":/type/XiaoYu.png"),
   ("雪", ":/type/Xue.png"),
   ("扬沙", ":/type/YangSha.png"),
   ("阴", ":/type/Yin.png"),
   ("雨", ":/type/Yu.png"),
   ("雨夹雪", ":/type/YuJiaXue.png"),
   ("阵雪", ":/type/ZhenXue.png"),
   ("阵雨", ":/type/ZhenYu.png"),
   ("中到大雪", ":/type/ZhongDaoDaXue.png"),
   ("中到大雨", ":/type/ZhongDaoDaYu.png"),
   ("中雪", ":/type/ZhongXue.png"),
   ("中雨", ":/type/ZhongYu.png")]

/-! ## Trend-curve layout (`Widget::drawTempLineHigh` lines 403–436,
`Widget::drawTempLineLow` lines 438–470)

Both routines share the same arithmetic; they differ only in which
temperature field they read. `Int.tdiv` models C++ `int` division
(truncation toward zero). -/

/-- Model of `QString::toInt()` in base 10: an optional sign followed by
digits yields the value, anything else yields 0 (conversion failure). -/
def digitsVal : List Char → Nat → Nat
  | [], acc => acc
  | c :: rest, acc => digitsVal rest (acc * 10 + (c.toNat - '0'.toNat))

/-- Whether a nonempty character list consists solely of decimal digits. -/
def allDigits (l : List Char) : Bool := !l.isEmpty && l.all (fun c => c.isDigit)

/-- `QString::toInt()`: parse an optionally signed decimal integer,
returning 0 on failure. -/
def qstringToInt (s : String) : Int :=
  match s.data with
  | '-' :: rest => if allDigits rest then -(Int.ofNat (digitsVal rest 0)) else 0
  | '+' :: rest => if allDigits rest then Int.ofNat (digitsVal rest 0) else 0
  | l => if allDigits l then Int.ofNat (digitsVal l 0) else 0

/-- The `sum` accumulated by the first loop (`sum += temps[i]` over the six
day slots). -/
def tempSum (temps : Fin 6 → Int) : Int :=
  temps 0 + temps 1 + temps 2 + temps 3 + temps 4 + temps 5

/-- `ave = sum / 6` with C++ truncating division. -/
def tempAve (temps : Fin 6 → Int) : Int := Int.tdiv (tempSum temps) 6

/-- The point computed for day `i`:
`x = mAirqList[i]->x() + mAirqList[i]->width()/2` (the horizontal center of
the day-strip anchor widget) and
`y = middle - offSet` with `middle = height/2` and
`offSet = (temps[i] - ave) * 3`. -/
def tempLinePoint (temps : Fin 6 → Int) (anchorX anchorW : Fin 6 → Int)
    (height : Int) (i : Fin 6) : Int × Int :=
  (anchorX i + Int.tdiv (anchorW i) 2,
   Int.tdiv height 2 - (temps i - tempAve temps) * 3)

/-- The six high temperatures read by `drawTempLineHigh`:
`days[i].mTempHigh.toInt()`. -/
def highTemps (days : Nat → Day) : Fin 6 → Int :=
  fun i => qstringToInt (days i.val).mTempHigh

/-- The six low temperatures read by `drawTempLineLow`:
`days[i].mTempLow.toInt()`. -/
def lowTemps (days : Nat → Day) : Fin 6 → Int :=
  fun i => qstringToInt (days i.val).mTempLow

/-- The six points of the high-temperature chart. -/
def drawTempLineHighPoints (days : Nat → Day) (anchorX anchorW : Fin 6 → Int)
    (height : Int) : Fin 6 → Int × Int :=
  tempLinePoint (highTemps days) anchorX anchorW height

/-- The six points of the low-temperature chart. -/
def drawTempLineLowPoints (days : Nat → Day) (anchorX anchorW : Fin 6 → Int)
    (height : Int) : Fin 6 → Int × Int :=
  tempLinePoint (lowTemps days) anchorX anchorW height

/-! ## HTTP reply handler (`Widget::readHttpReply`, lines 482–525) -/

/-- `Widget::readHttpReply`. Inputs: whether `reply->error()` differs from
`QNetworkReply::NoError`, the HTTP status code, and the body as parsed JSON
(`none` for a body that is not valid JSON). Returns the `days` array after
the call, whether `updateUI` ran, and whether the error message box was
shown. -/
def readHttpReply (networkError : Bool) (resCode : Int) (body : Option JValue)
    (days : Nat → Day) : (Nat → Day) × Bool × Bool :=
  if networkError = false ∧ resCode = 200 then
    let p := parseWeatherJsonDataNew body days
    (p.1, p.2, false)
  else
    (days, false, true)

/-! ## City submission (`Widget::on_LineEditCity_clicked`, lines 527–560,
and the constructor's request URL, lines 79–89) -/

/-- The static base query string set in the constructor (line 82). -/
def strUrlInit : String :=
  "http://gfeljm.tianqiapi.com/api?unescape=1&version=v9&appid=29132936&appsecret=JV3FYmaV"

/-- The mutable state touched by a submission: the member `strUrl` (mutated
by `strUrl += "&cityid=" + cityCode`) and the `days` array. -/
structure AppState where
  strUrl : String
  days : Nat → Day

/-- `Widget::on_LineEditCity_clicked` for an already-loaded resolver table
`cityMap`. The test `cityCode != NULL` compares a `QString` with a null
`char*`, which Qt evaluates as "the string is not empty". Returns the new
state, the list of request URLs issued by this call, and whether the
"请输入正确的城市名称" error box was shown. -/
def onLineEditCityClicked (cityMap : List (String × String)) (s : AppState)
    (input : String) : AppState × List String × Bool :=
  let cityCode := getCityCodeFromName cityMap input
  if cityCode ≠ "" then
    let url := s.strUrl ++ "&cityid=" ++ cityCode
    ({ s with strUrl := url }, [url], false)
  else
    (s, [], true)

/-- A sequence of user submissions: returns the final state and all request
URLs issued, in order. -/
def runSubmissions (cityMap : List (String × String)) :
    AppState → List String → AppState × List String
  | s, [] => (s, [])
  | s, input :: rest =>
    let c := onLineEditCityClicked cityMap s input
    let r := runSubmissions cityMap c.1 rest
    (r.1, c.2.1 ++ r.2)

/-- The city codes of the successful resolutions among a list of inputs, in
submission order. -/
def successCodes (cityMap : List (String × String)) (inputs : List String) :
    List String :=
  (inputs.map (getCityCodeFromName cityMap)).filter (fun c => decide (c ≠ ""))

/-- `"&cityid=" ++ c` segments for a list of codes, concatenated. -/
def cityidSegs : List String → String
  | [] => ""
  | c :: rest => "&cityid=" ++ c ++ cityidSegs rest

/-- Number of occurrences of `pat` (as a substring, counted at every start
position) in a character list. -/
def countSubAux (pat : List Char) : List Char → Nat
  | [] => 0
  | c :: rest => (if pat.isPrefixOf (c :: rest) then 1 else 0) + countSubAux pat rest

/-- Number of occurrences of the substring `pat` in `s`. -/
def countSubstr (pat s : String) : Nat := countSubAux pat.data s.data

/-- `QJsonValue::isObject()`. -/
def JValue.isObjectQ : JValue → Bool
  | .obj _ => true
  | _ => false

/-! ## Sample data used by witnesses and counterexamples -/

/-- A sample resolver table exercising all four match forms. -/
def cityMapSample : List (String × String) :=
  [("北京市", "101010100"), ("佛冈县", "101281301"),
   ("朝阳区", "101010300"), ("上海", "101020600")]

/-- A previously populated `days` array (every slot holds yesterday's fetch),
used to observe which slots a later call overwrites. -/
def daysPrev : Nat → Day :=
  fun _ =>
    { Day.empty with mCity := "北京", mPm25 := "35", mDate := "2024-01-01",
                     mWeathType := "晴", mTempHigh := "10", mTempLow := "2" }

/-- The temperatures of the spec's worked example. -/
def exTemps : Fin 6 → Int := fun i => ([0, 10, 20, 0, 10, 20].getD i.val 0 : Int)

/-- An 8-element `data` array (one day-object per element is not required by
the loop, which converts with `toObject`). -/
def data8 : List JValue :=
  [.null, .null, .null, .null, .null, .null, .null, .null]

/-- The request URLs produced by a list of successfully resolved codes, each
appended in turn to the persistent `strUrl` member: the URL sent for a code
is the accumulated string including all earlier codes. -/
def sentURLs (url0 : String) : List String → List String
  | [] => []
  | c :: rest => (url0 ++ "&cityid=" ++ c) :: sentURLs (url0 ++ "&cityid=" ++ c) rest

/-! ## Theorems -/

/-- C1: for every city name `n`, `getCityCodeFromName` returns the stored
code for `n` when `n` is in the table verbatim; otherwise the stored code for
`n ++ "市"` if present; otherwise for `n ++ "县"`; otherwise for `n ++ "区"`;
and `""` when all four forms are absent. Matching is exact-string (assoc-list
lookup), and the fallback is tried in exactly that order. -/
theorem getCityCodeFromName_fallback (m : List (String × String)) (n : String) :
    (∀ c, mapFind m n = some c → getCityCodeFromName m n = c)
    ∧ (mapFind m n = none → ∀ c, mapFind m (n ++ "市") = some c →
        getCityCodeFromName m n = c)
    ∧ (mapFind m n = none → mapFind m (n ++ "市") = none →
        ∀ c, mapFind m (n ++ "县") = some c → getCityCodeFromName m n = c)
    ∧ (mapFind m n = none → mapFind m (n ++ "市") = none →
        mapFind m (n ++ "县") = none →
        ∀ c, mapFind m (n ++ "区") = some c → getCityCodeFromName m n = c)
    ∧ (mapFind m n = none → mapFind m (n ++ "市") = none →
        mapFind m (n ++ "县") = none → mapFind m (n ++ "区") = none →
        getCityCodeFromName m n = "") := by
  refine ⟨?_, ?_, ?_, ?_, ?_⟩ <;> intros <;> simp_all [getCityCodeFromName]

/-- Witness for C1: the five branches at a concrete table. -/
theorem getCityCodeFromName_fallback_witness :
    getCityCodeFromName cityMapSample "上海" = "101020600"
    ∧ getCityCodeFromName cityMapSample "北京" = "101010100"
    ∧ getCityCodeFromName cityMapSample "佛冈" = "101281301"
    ∧ getCityCodeFromName cityMapSample "朝阳" = "101010300"
    ∧ getCityCodeFromName cityMapSample "东京" = "" :=
  ⟨(getCityCodeFromName_fallback cityMapSample "上海").1 _ (by decide),
   (getCityCodeFromName_fallback cityMapSample "北京").2.1 (by decide) _ (by decide),
   (getCityCodeFromName_fallback cityMapSample "佛冈").2.2.1 (by decide) (by decide) _
     (by decide),
   (getCityCodeFromName_fallback cityMapSample "朝阳").2.2.2.1 (by decide) (by decide)
     (by decide) _ (by decide),
   (getCityCodeFromName_fallback cityMapSample "东京").2.2.2.2 (by decide) (by decide)
     (by decide) (by decide)⟩

/-- C2: the trend-curve layout computes `average = sum / 6` with truncating
division and places point `i` at the horizontal center of day-strip anchor
`i` and `y = height/2 - (temps i - average) * 3`; when all six temperatures
are equal every `y` equals `height/2`; for temps `[0,10,20,0,10,20]` the
average is 10 and the offsets are `[-30,0,30,-30,0,30]`; the same layout is
used by both the high- and the low-temperature chart. -/
theorem trendLayout_points (temps : Fin 6 → Int) (anchorX anchorW : Fin 6 → Int)
    (height : Int) :
    (∀ i, tempLinePoint temps anchorX anchorW height i
        = (anchorX i + Int.tdiv (anchorW i) 2,
           Int.tdiv height 2 - (temps i - Int.tdiv (tempSum temps) 6) * 3))
    ∧ (∀ t, (∀ i, temps i = t) →
        ∀ i, (tempLinePoint temps anchorX anchorW height i).2 = Int.tdiv height 2)
    ∧ (tempAve exTemps = 10
        ∧ List.ofFn (fun i => (exTemps i - tempAve exTemps) * 3)
            = [-30, 0, 30, -30, 0, 30])
    ∧ (∀ days, drawTempLineHighPoints days anchorX anchorW height
          = tempLinePoint (highTemps days) anchorX anchorW height
        ∧ drawTempLineLowPoints days anchorX anchorW height
          = tempLinePoint (lowTemps days) anchorX anchorW height) := by
  refine ⟨fun i => rfl, ?_, ⟨by decide, by decide⟩, fun days => ⟨rfl, rfl⟩⟩
  intro t ht i
  have hsum : tempSum temps = 6 * t := by
    simp only [tempSum, ht]; ring
  simp [tempLinePoint, tempAve, hsum, ht i,
    Int.mul_tdiv_cancel_left _ (by decide : (6 : Int) ≠ 0)]

/-- Witness for C2: the flat-line conclusion at a constant temperature
sequence and a concrete chart height. -/
theorem trendLayout_points_witness :
    (tempLinePoint (fun _ => 8) (fun _ => 0) (fun _ => 40) 100 3).2 = Int.tdiv 100 2 :=
  (trendLayout_points (fun _ => 8) (fun _ => 0) (fun _ => 40) 100).2.1 8 (fun _ => rfl) 3

/-- C7: for every submitted city query, if resolution returns `""` the error
box is shown, no request is issued and the state is unchanged; if resolution
succeeds, exactly one GET request is issued and no error box is shown. -/
theorem onSubmit_resolution (cityMap : List (String × String)) (s : AppState)
    (input : String) :
    (getCityCodeFromName cityMap input = "" →
        onLineEditCityClicked cityMap s input = (s, [], true))
    ∧ (getCityCodeFromName cityMap input ≠ "" →
        (onLineEditCityClicked cityMap s input).2.1
            = [s.strUrl ++ "&cityid=" ++ getCityCodeFromName cityMap input]
        ∧ (onLineEditCityClicked cityMap s input).2.2 = false) := by
  constructor <;> intro h <;> simp [onLineEditCityClicked, h]

/-- Witness for C7: both branches at a concrete table and state. -/
theorem onSubmit_resolution_witness :
    onLineEditCityClicked cityMapSample ⟨strUrlInit, daysPrev⟩ "东京"
        = (⟨strUrlInit, daysPrev⟩, [], true)
    ∧ (onLineEditCityClicked cityMapSample ⟨strUrlInit, daysPrev⟩ "北京").2.1
        = [strUrlInit ++ "&cityid=101010100"]
    ∧ (onLineEditCityClicked cityMapSample ⟨strUrlInit, daysPrev⟩ "北京").2.2
        = false := by
  refine ⟨(onSubmit_resolution cityMapSample ⟨strUrlInit, daysPrev⟩ "东京").1
      (by decide), ?_,
    ((onSubmit_resolution cityMapSample ⟨strUrlInit, daysPrev⟩ "北京").2
      (by decide)).2⟩
  have h := ((onSubmit_resolution cityMapSample ⟨strUrlInit, daysPrev⟩ "北京").2
    (by decide)).1
  rw [h]; decide

/-- C8: for every arriving HTTP response with a transport error or a status
code other than 200, `readHttpReply` shows the error box and leaves the
stored `days` array entirely unchanged, and `updateUI` does not run. -/
theorem readHttpReply_failure_frame (networkError : Bool) (resCode : Int)
    (body : Option JValue) (days : Nat → Day)
    (h : networkError = true ∨ resCode ≠ 200) :
    readHttpReply networkError resCode body days = (days, false, true) := by
  rcases h with h | h <;> simp [readHttpReply, h]

/-- Witness for C8: a 404 status with an otherwise well-formed body leaves
the previous forecast intact and shows the error box. -/
theorem readHttpReply_failure_frame_witness :
    readHttpReply false 404 (some (JValue.obj [("data", JValue.arr [])])) daysPrev
      = (daysPrev, false, true) :=
  readHttpReply_failure_frame false 404 (some (JValue.obj [("data", JValue.arr [])]))
    daysPrev (Or.inr (by decide))

/-- C3 (amended): for a payload that is not valid JSON or whose top-level
value is not an object, `parseWeatherJsonDataNew` leaves `days` completely
unchanged and does not refresh the UI. For a valid top-level object whose
`data` member is absent or not an array, no day records are produced and the
UI is not refreshed, but `days[0].mCity` and `days[0].mPm25` are overwritten
from the top-level `city`/`aqi.pm25` values (every other field of every slot
is unchanged): the parse is not atomic in that case. -/
theorem parse_failure_frame (days : Nat → Day) :
    parseWeatherJsonDataNew none days = (days, false)
    ∧ (∀ v : JValue, v.isObjectQ = false →
        parseWeatherJsonDataNew (some v) days = (days, false))
    ∧ (∀ root, ((jLookup root "data").isSome && (jGet root "data").isArrayQ) = false →
        parseWeatherJsonDataNew (some (JValue.obj root)) days
          = (writeDay days 0
              { days 0 with
                mCity := (jGet root "city").toStringQ
                mPm25 := (jGet (jGet root "aqi").toObjectQ "pm25").toStringQ },
             false)) := by
  refine ⟨rfl, ?_, ?_⟩
  · intro v hv
    cases v <;> simp_all [parseWeatherJsonDataNew, JValue.isObjectQ]
  · intro root h
    simp [parseWeatherJsonDataNew, h]

/-- Witness for C3: a non-object payload is a no-op; an object payload
without `data` overwrites exactly slot 0's city and pm25. -/
theorem parse_failure_frame_witness :
    parseWeatherJsonDataNew (some (JValue.str "not json-object")) daysPrev
      = (daysPrev, false)
    ∧ parseWeatherJsonDataNew (some (JValue.obj [("city", JValue.str "旧金山")])) daysPrev
      = (writeDay daysPrev 0 { daysPrev 0 with mCity := "旧金山", mPm25 := "" },
         false) := by
  refine ⟨(parse_failure_frame daysPrev).2.1 _ rfl, ?_⟩
  have h := (parse_failure_frame daysPrev).2.2 [("city", JValue.str "旧金山")] rfl
  exact h

/-- Counterexample for C3 as stated: for the valid-JSON object payload
`{"city":"旧金山"}` (no `data` member), the destination record sequence is
NOT left unchanged — `days[0].mCity` is overwritten. -/
theorem parse_missingData_counterexample :
    ((parseWeatherJsonDataNew (some (JValue.obj [("city", JValue.str "旧金山")]))
        daysPrev).1 0).mCity = "旧金山"
    ∧ (parseWeatherJsonDataNew (some (JValue.obj [("city", JValue.str "旧金山")]))
        daysPrev).1 0 ≠ daysPrev 0 := by
  exact ⟨by decide, by decide⟩

/-- C4 (amended): a 200 response with a syntactically valid body whose `data`
member is the empty array does NOT leave the display state unchanged: it
overwrites `days[0].mCity` and `days[0].mPm25` with the payload's top-level
values (empty strings when absent) and invokes the full UI refresh
`updateUI`; no per-day forecast field of any slot is written and no error box
is shown. -/
theorem readHttpReply_emptyData (root : List (String × JValue)) (days : Nat → Day)
    (h : jLookup root "data" = some (JValue.arr [])) :
    readHttpReply false 200 (some (JValue.obj root)) days
      = (writeDay days 0
          { days 0 with
            mCity := (jGet root "city").toStringQ
            mPm25 := (jGet (jGet root "aqi").toObjectQ "pm25").toStringQ },
         true, false) := by
  simp [readHttpReply, parseWeatherJsonDataNew, h, jGet, JValue.isArrayQ,
    JValue.toArrayQ]

/-- Witness for C4: the payload `{"data":[]}` at status 200. -/
theorem readHttpReply_emptyData_witness :
    readHttpReply false 200 (some (JValue.obj [("data", JValue.arr [])])) daysPrev
      = (writeDay daysPrev 0 { daysPrev 0 with mCity := "", mPm25 := "" },
         true, false) := by
  have h := readHttpReply_emptyData [("data", JValue.arr [])] daysPrev rfl
  exact h

/-- Counterexample for C4 as stated: a 200 response with body `{"data":[]}`
does change the display state — `updateUI` runs and `days[0]` loses its
previously fetched city name. -/
theorem emptyData_display_counterexample :
    (readHttpReply false 200 (some (JValue.obj [("data", JValue.arr [])]))
        daysPrev).2.1 = true
    ∧ ((readHttpReply false 200 (some (JValue.obj [("data", JValue.arr [])]))
        daysPrev).1 0).mCity = ""
    ∧ (readHttpReply false 200 (some (JValue.obj [("data", JValue.arr [])]))
        daysPrev).1 0 ≠ daysPrev 0 := by
  exact ⟨by decide, by decide, by decide⟩

/-- Indices not written by the parser's day loop keep their record: helper
frame lemma for the fold over the written index list. -/
theorem foldl_writeDay_notMem (F : (Nat → Day) → Nat → Day) (l : List Nat) :
    ∀ (d : Nat → Day) (j : Nat), j ∉ l →
      (l.foldl (fun acc i => writeDay acc i (F acc i)) d) j = d j := by
  induction l with
  | nil => intro d j _; rfl
  | cons i l ih =>
    intro d j h
    simp only [List.mem_cons, not_or] at h
    simp only [List.foldl_cons]
    rw [ih _ j h.2]
    simp [writeDay, h.1]

/-- C10: the parser's day loop writes `days[i]` for every `i` from 0 up to
the length of the payload's `data` array, with no bound check against the
7-element `days` array: all writes are in bounds iff the array has at most
`daysArraySize = 7` elements, and for 8 or more elements some written index
lies past the end. Indices outside the written set (other than slot 0, whose
city/pm25 are set beforehand) are untouched. -/
theorem parse_write_bounds (root : List (String × JValue)) (a : List JValue)
    (days : Nat → Day) (h : jLookup root "data" = some (JValue.arr a)) :
    parseWrittenIndices (some (JValue.obj root)) = List.range a.length
    ∧ ((∀ i ∈ List.range a.length, i < daysArraySize) ↔ a.length ≤ daysArraySize)
    ∧ (8 ≤ a.length →
        ∃ i ∈ parseWrittenIndices (some (JValue.obj root)), daysArraySize ≤ i)
    ∧ (∀ j, j ∉ parseWrittenIndices (some (JValue.obj root)) → j ≠ 0 →
        (parseWeatherJsonDataNew (some (JValue.obj root)) days).1 j = days j) := by
  have hw : parseWrittenIndices (some (JValue.obj root)) = List.range a.length := by
    simp [parseWrittenIndices, h, jGet, JValue.isArrayQ, JValue.toArrayQ]
  refine ⟨hw, ?_, ?_, ?_⟩
  · constructor
    · intro hall
      by_contra hgt
      exact absurd (hall daysArraySize (by simp [List.mem_range]; omega)) (by omega)
    · intro hle i hi
      simp only [List.mem_range] at hi
      omega
  · intro h8
    refine ⟨daysArraySize, ?_, le_refl _⟩
    rw [hw]
    simp only [List.mem_range, daysArraySize]
    omega
  · intro j hj hj0
    rw [hw] at hj
    simp only [parseWeatherJsonDataNew, h, jGet, Option.getD_some, JValue.isArrayQ,
      Option.isSome_some, Bool.true_and, JValue.toArrayQ, if_true]
    rw [foldl_writeDay_notMem _ _ _ j hj]
    simp [writeDay, hj0]

/-- Witness for C10: an 8-element `data` array writes index 7, one past the
last valid slot of `Day days[7]`. -/
theorem parse_write_bounds_witness :
    parseWrittenIndices (some (JValue.obj [("data", JValue.arr data8)]))
      = List.range 8
    ∧ ∃ i ∈ parseWrittenIndices (some (JValue.obj [("data", JValue.arr data8)])),
        daysArraySize ≤ i := by
  have h := parse_write_bounds [("data", JValue.arr data8)] data8 daysPrev rfl
  exact ⟨h.1, h.2.2.1 (by decide)⟩

/-- C5 (amended): the renderer always selects the day-strip icon using the
full condition text: the branch that splits at "转" computes a value that is
immediately overwritten, so it never reaches the label, and the displayed
condition text is the full string. -/
theorem updateUI_icon_full_string (typeMap : List (String × String)) (w : String) :
    updateUIIconPath typeMap w = qmapBracket typeMap w
    ∧ updateUIConditionText w = w :=
  ⟨rfl, rfl⟩

/-- Counterexample for C5 as stated: for the transition condition
"晴转多云" the claim demands icon selection by the post-transition substring
"多云" (present in `mTypeMap`), but the code looks up the full string, which
is not in `mTypeMap`, yielding the default-constructed (empty) path. -/
theorem updateUI_icon_zhuan_counterexample :
    updateUIIconPath mTypeMap "晴转多云" = ""
    ∧ iconKeyFromSpec "晴转多云" = "多云"
    ∧ qmapBracket mTypeMap "多云" = ":/type/DuoYun.png"
    ∧ updateUIIconPath mTypeMap "晴转多云"
        ≠ qmapBracket mTypeMap (iconKeyFromSpec "晴转多云") := by
  exact ⟨by decide, by decide, by decide, by decide⟩

/-- Helper: once the resolver's table is nonempty, every later call leaves it
unchanged, never re-runs `InitCityMap`, and returns pure lookups. -/
theorem runResolver_loaded (loadResult m : List (String × String))
    (hm : m.isEmpty = false) (names : List String) :
    runResolver loadResult m names = (m, names.map (getCityCodeFromName m), 0) := by
  induction names with
  | nil => rfl
  | cons n rest ih => simp [runResolver, resolverCall, hm, ih]

/-- Helper: when `InitCityMap` yields an empty table (dataset missing or
malformed), every call finds the table empty and re-runs the load. -/
theorem runResolver_emptyLoad (names : List String) :
    runResolver [] [] names = ([], names.map (getCityCodeFromName []), names.length) := by
  induction names with
  | nil => rfl
  | cons n rest ih => simp [runResolver, resolverCall, ih]; omega

/-- C9 (amended): across any call sequence on one resolver instance starting
with an empty table, results are deterministic — the returned codes are the
pure lookups against the loaded table. When the dataset load produces a
nonempty table, `InitCityMap` executes exactly once (and never for an empty
call sequence); but when the load fails and the table remains empty,
`InitCityMap` executes again on EVERY call, not at most once. -/
theorem resolver_load_behavior (loadResult : List (String × String))
    (names : List String) :
    (runResolver loadResult [] names).2.1
        = names.map (getCityCodeFromName loadResult)
    ∧ (loadResult ≠ [] →
        (runResolver loadResult [] names).2.2 = if names = [] then 0 else 1)
    ∧ (loadResult = [] →
        (runResolver loadResult [] names).2.2 = names.length) := by
  by_cases hL : loadResult = []
  · subst hL
    have h := runResolver_emptyLoad names
    exact ⟨by rw [h], fun hn => absurd rfl hn, fun _ => by rw [h]⟩
  · have hne : loadResult.isEmpty = false := by
      cases loadResult with
      | nil => exact absurd rfl hL
      | cons x xs => rfl
    cases names with
    | nil => exact ⟨rfl, fun _ => rfl, fun hc => absurd hc hL⟩
    | cons n rest =>
      have hrun : runResolver loadResult [] (n :: rest)
          = (loadResult,
             getCityCodeFromName loadResult n
               :: rest.map (getCityCodeFromName loadResult), 1) := by
        simp [runResolver, resolverCall, runResolver_loaded loadResult loadResult hne rest]
      exact ⟨by rw [hrun]; rfl, fun _ => by rw [hrun]; rfl, fun hc => absurd hc hL⟩

/-- Witness for C9: a successfully loaded table serves two lookups with a
single `InitCityMap` execution and pure, repeatable results. -/
theorem resolver_load_behavior_witness :
    (runResolver cityMapSample [] ["北京", "北京"]).2.1
      = ["101010100", "101010100"]
    ∧ (runResolver cityMapSample [] ["北京", "北京"]).2.2 = 1 := by
  have h := resolver_load_behavior cityMapSample ["北京", "北京"]
  refine ⟨by rw [h.1]; decide, by rw [h.2.1 (by decide)]; decide⟩

/-- Counterexample for C9 as stated: when the dataset load fails (empty
table), two lookups execute `InitCityMap` twice — the load is NOT executed
at most once regardless of call count. -/
theorem resolver_reload_counterexample :
    (runResolver [] [] ["北京", "上海"]).2.2 = 2
    ∧ ¬(runResolver [] [] ["北京", "上海"]).2.2 ≤ 1 := by
  exact ⟨by decide, by decide⟩

/-- Helper: every URL issued over a submission sequence is the base string
followed by the `&cityid=` segments of a nonempty prefix of the successful
codes. -/
theorem sentURLs_mem (cs : List String) :
    ∀ (url0 u : String), u ∈ sentURLs url0 cs →
      ∃ k, k < cs.length ∧ u = url0 ++ cityidSegs (cs.take (k + 1)) := by
  induction cs with
  | nil => intro url0 u h; cases h
  | cons c rest ih =>
    intro url0 u h
    rcases List.mem_cons.mp h with he | hmem
    · refine ⟨0, by simp, ?_⟩
      rw [he]
      simp [cityidSegs, String.append_empty, String.append_assoc]
    · rcases ih (url0 ++ "&cityid=" ++ c) u hmem with ⟨k, hk, he⟩
      refine ⟨k + 1, by simpa using Nat.succ_lt_succ hk, ?_⟩
      rw [he]
      simp [cityidSegs, String.append_assoc]

/-- Helper: the exact effect of a submission sequence on `strUrl` and the
issued request URLs: every successful resolution appends its own
`&cityid=<code>` segment to the persistent member `strUrl`, and the request
sent for it carries all segments accumulated so far. Failed resolutions send
nothing and change nothing. -/
theorem runSubmissions_accumulates (cityMap : List (String × String))
    (inputs : List String) :
    ∀ (url0 : String) (d : Nat → Day),
      runSubmissions cityMap ⟨url0, d⟩ inputs
        = (⟨url0 ++ cityidSegs (successCodes cityMap inputs), d⟩,
           sentURLs url0 (successCodes cityMap inputs)) := by
  induction inputs with
  | nil =>
    intro url0 d
    simp [runSubmissions, successCodes, cityidSegs, sentURLs, String.append_empty]
  | cons input rest ih =>
    intro url0 d
    by_cases hc : getCityCodeFromName cityMap input = ""
    · simp only [runSubmissions, onLineEditCityClicked, hc, ne_eq,
        not_true_eq_false, if_false, List.nil_append]
      rw [ih url0 d]
      simp [successCodes, hc]
    · simp only [runSubmissions, onLineEditCityClicked, ne_eq, hc,
        not_false_eq_true, if_true]
      rw [ih (url0 ++ "&cityid=" ++ getCityCodeFromName cityMap input) d]
      simp [successCodes, hc, cityidSegs, sentURLs, String.append_assoc]

/-- C6 (amended): starting from the static base query string, each successful
submission appends its own `&cityid=<code>` segment to the persistent URL
member and sends the accumulated string, so an outbound URL carries one
cityid parameter per successful resolution so far (the most recent last) —
not at most one. A cityid parameter is present only after at least one
successful resolution: with no successful resolution the URL remains the
static base and nothing beyond the startup request is sent. -/
theorem url_cityid_accumulation (cityMap : List (String × String))
    (d : Nat → Day) (inputs : List String) :
    runSubmissions cityMap ⟨strUrlInit, d⟩ inputs
      = (⟨strUrlInit ++ cityidSegs (successCodes cityMap inputs), d⟩,
         sentURLs strUrlInit (successCodes cityMap inputs))
    ∧ (∀ u ∈ (runSubmissions cityMap ⟨strUrlInit, d⟩ inputs).2,
        ∃ k, k < (successCodes cityMap inputs).length
          ∧ u = strUrlInit ++ cityidSegs ((successCodes cityMap inputs).take (k + 1)))
    ∧ (successCodes cityMap inputs = [] →
        (runSubmissions cityMap ⟨strUrlInit, d⟩ inputs).1.strUrl = strUrlInit
        ∧ (runSubmissions cityMap ⟨strUrlInit, d⟩ inputs).2 = []) := by
  have h := runSubmissions_accumulates cityMap inputs strUrlInit d
  refine ⟨h, ?_, ?_⟩
  · intro u hu
    rw [h] at hu
    exact sentURLs_mem (successCodes cityMap inputs) strUrlInit u hu
  · intro hnil
    rw [h, hnil]
    exact ⟨String.append_empty strUrlInit, rfl⟩

/-- Witness for C6: two successful submissions; the first request carries one
cityid segment, the second carries both, each a prefix of the accumulated
code list. -/
theorem url_cityid_accumulation_witness :
    (runSubmissions cityMapSample ⟨strUrlInit, daysPrev⟩ ["北京", "上海"]).1.strUrl
      = strUrlInit ++ "&cityid=101010100&cityid=101020600"
    ∧ (runSubmissions cityMapSample ⟨strUrlInit, daysPrev⟩ ["北京", "上海"]).2
      = [strUrlInit ++ "&cityid=101010100",
         strUrlInit ++ "&cityid=101010100" ++ "&cityid=101020600"]
    ∧ ∃ k, k < (successCodes cityMapSample ["北京", "上海"]).length
        ∧ strUrlInit ++ "&cityid=101010100"
            = strUrlInit
              ++ cityidSegs ((successCodes cityMapSample ["北京", "上海"]).take (k + 1)) := by
  refine ⟨?_, ?_, ?_⟩
  · rw [(url_cityid_accumulation cityMapSample daysPrev ["北京", "上海"]).1]
    decide
  · rw [(url_cityid_accumulation cityMapSample daysPrev ["北京", "上海"]).1]
    decide
  · exact (url_cityid_accumulation cityMapSample daysPrev ["北京", "上海"]).2.1
      (strUrlInit ++ "&cityid=101010100") (by decide)

/-- Counterexample for C6 as stated: after the two successful submissions
"北京" then "上海", the second outbound URL contains TWO `&cityid=`
parameters, and it does not equal the base followed by the single most
recent code. -/
theorem url_two_cityid_counterexample :
    (runSubmissions cityMapSample ⟨strUrlInit, daysPrev⟩ ["北京", "上海"]).2
      = [strUrlInit ++ "&cityid=101010100",
         strUrlInit ++ "&cityid=101010100&cityid=101020600"]
    ∧ countSubstr "&cityid="
        (strUrlInit ++ "&cityid=101010100&cityid=101020600") = 2
    ∧ ¬countSubstr "&cityid="
        (strUrlInit ++ "&cityid=101010100&cityid=101020600") ≤ 1
    ∧ strUrlInit ++ "&cityid=101010100&cityid=101020600"
        ≠ strUrlInit ++ "&cityid=" ++ "101020600" := by
  exact ⟨by decide, by decide, by decide, by decide⟩

end WeatherApp
